import Mathlib

/-!
Verification development for the `cli_demo` repository.

This file gives a shallow embedding of the parts of the code that the
specification talks about:

* the signal taxonomy (`DemoException` and its subclasses) and the
  `catch_exc` guard combinator from `src/demo/exceptions.py`;
* the per-body-line rendering and word-wrapping logic of `print_help`,
  and the self-disabling `print_intro`, from `src/demo/demo.py`.

Python 3 string semantics are used throughout (a string is a sequence of
Unicode code points), matching the `#!/usr/bin/env python3` shebang of
`src/demo/demo.py`.
-/

/-- The exception classes that `catch_exc` can observe: `DemoException`
and its subclasses from `src/demo/exceptions.py`, plus
`KeyboardInterrupt` and a stand-in class (`valueError`) representing an
arbitrary exception class unrelated to the demo hierarchy. -/
inductive ExcClass
  | demoException
  | demoRestart
  | demoExit
  | demoRetry
  | optionError
  | keyNotFoundError
  | optionNotFoundError
  | callbackNotFoundError
  | callbackNotLockError
  | keyboardInterrupt
  | valueError
deriving DecidableEq

/-- All classes `c` is a (non-strict) subclass of, following the class
hierarchy of `src/demo/exceptions.py` (each class lists itself first,
then its bases up to `DemoException`; `KeyboardInterrupt` and the
stand-in `valueError` are outside the demo hierarchy). -/
def ancestors : ExcClass → List ExcClass
  | .demoException => [.demoException]
  | .demoRestart => [.demoRestart, .demoException]
  | .demoExit => [.demoExit, .demoException]
  | .demoRetry => [.demoRetry, .demoException]
  | .optionError => [.optionError, .demoException]
  | .keyNotFoundError => [.keyNotFoundError, .optionError, .demoException]
  | .optionNotFoundError => [.optionNotFoundError, .optionError, .demoException]
  | .callbackNotFoundError => [.callbackNotFoundError, .optionError, .demoException]
  | .callbackNotLockError => [.callbackNotLockError, .optionError, .demoException]
  | .keyboardInterrupt => [.keyboardInterrupt]
  | .valueError => [.valueError]

/-- Python `issubclass c d` restricted to the modelled classes. -/
def issubclass (c d : ExcClass) : Bool := decide (d ∈ ancestors c)

/-- A Python exception instance as `catch_exc` sees it: its class and its
`text` attribute (`none` models `text = None`). -/
structure PyExc where
  cls : ExcClass
  text : Option String
deriving DecidableEq

/-- Class-level `text` attribute of each class, copied from
`src/demo/exceptions.py` (`DemoException.text = None`; the `OptionError`
subclasses hold format-string templates). -/
def classDefaultText : ExcClass → Option String
  | .demoException => none
  | .demoRestart => some "Restarting."
  | .demoExit => some "Goodbye!"
  | .demoRetry => some ""
  | .optionError => none
  | .keyNotFoundError => some "'\x7b\x7d' does not exist in the cache."
  | .optionNotFoundError => some "'\x7b\x7d' not registered."
  | .callbackNotFoundError => some "'\x7b\x7d' callback not registered"
  | .callbackNotLockError => some "'\x7b\x7d' callback not lock, key rejected"
  | .keyboardInterrupt => none
  | .valueError => none

/-- `DemoException.__init__(self, text=None)`: the instance text is set
to `text` only when `text` is truthy (a non-empty string); otherwise the
class-level default is left in place. -/
def DemoException.init (cls : ExcClass) (text : Option String) : PyExc :=
  { cls := cls
    text := match text with
      | some s => if s = "" then classDefaultText cls else some s
      | none => classDefaultText cls }

/-- Substitute the first occurrence of the placeholder pair in a format
string with `arg`, as Python `fmt.format(arg)` does for the class
templates of `src/demo/exceptions.py` (each of which contains exactly one
placeholder). -/
def formatOneAux (arg : List Char) : List Char → List Char
  | '\x7b' :: '\x7d' :: rest => arg ++ rest
  | c :: rest => c :: formatOneAux arg rest
  | [] => []

/-- String-level wrapper of `formatOneAux`. -/
def formatOne (fmt arg : String) : String := ⟨formatOneAux arg.data fmt.data⟩

/-- `OptionError.__init__(self, option)`: `self.text = self.text.format(option)`,
formatting the class template with the option name. -/
def OptionError.init (cls : ExcClass) (option : String) : PyExc :=
  { cls := cls
    text := (classDefaultText cls).map (fun t => formatOne t option) }

/-- `Demo.quit(self, text=None)` from `src/demo/demo.py`: raises
`DemoExit(text)`; this is the exception it raises. -/
def Demo.quit (text : Option String) : PyExc := DemoException.init .demoExit text

/-- Python `isinstance(e, demo_exc)` where `demo_exc` is the tuple (or
single class) the guard catches. -/
def isInstance (e : PyExc) (cs : List ExcClass) : Bool :=
  cs.any (fun c => issubclass e.cls c)

/-- An argument passed to `catch_exc`: a class, a function/method, or any
other object. -/
inductive CatchArg
  | cls (c : ExcClass)
  | func
  | other
deriving DecidableEq

/-- The catch-set computed by `catch_exc` (`src/demo/exceptions.py`,
lines 101-114): arguments that are not subclasses of `DemoException` are
removed (non-classes raise `TypeError` in `issubclass` and are also
removed); if nothing remains, the catch-set defaults to `DemoException`
itself. -/
def catchSet (args : List CatchArg) : List ExcClass :=
  let kept := args.filterMap (fun a =>
    match a with
    | .cls c => if issubclass c .demoException then some c else none
    | .func => none
    | .other => none)
  if kept.isEmpty then [.demoException] else kept

/-- Outcome of one invocation of the guarded body: it either returns a
value or raises an exception (a `KeyboardInterrupt` is the exception with
class `keyboardInterrupt`). -/
inductive BodyOutcome (α : Type)
  | ret (v : α)
  | raise (e : PyExc)
deriving DecidableEq

/-- What one iteration of the guard loop decides to do. -/
inductive IterResult (α : Type)
  | returnVal (v : α)
  | breakLoop
  | continueLoop
  | propagate (e : PyExc)
deriving DecidableEq

/-- How a whole run of the guard ends: the body returned a value, the
loop was broken by a caught `DemoExit` (the wrapper then returns `None`),
an uncaught exception propagated, or the fuel ran out (the loop is still
running). -/
inductive GuardResult (α : Type)
  | value (v : α)
  | exited
  | propagated (e : PyExc)
  | diverge
deriving DecidableEq

/-- Lines printed when a signal is caught (`src/demo/exceptions.py`,
lines 126-128): if `exc.text` is truthy, print it and then a blank
line. -/
def textMsgs (e : PyExc) : List String :=
  match e.text with
  | some s => if s = "" then [] else [s, ""]
  | none => []

/-- The `except demo_exc as exc:` handler (`src/demo/exceptions.py`,
lines 125-130): a caught signal prints its text, then the loop breaks if
the signal is a `DemoExit` and continues otherwise; an exception not
matching the catch-set propagates. -/
def handleSignal {α : Type} (cs : List ExcClass) (e : PyExc) :
    List String × IterResult α :=
  if isInstance e cs then
    (textMsgs e, if issubclass e.cls .demoExit then .breakLoop else .continueLoop)
  else ([], .propagate e)

/-- The `except KeyboardInterrupt:` handler (`src/demo/exceptions.py`,
lines 122-124): on a `KeyboardInterrupt`, print a blank line and raise
the exception produced by `demo.quit()`; any other exception passes
through unchanged. -/
def interruptToExit (e : PyExc) : List String × PyExc :=
  if issubclass e.cls .keyboardInterrupt then ([""], Demo.quit none) else ([], e)

/-- One iteration of the guard loop (`src/demo/exceptions.py`, lines
118-130): run the body once, convert an interrupt, then handle the
resulting exception. Returns the printed lines and the loop decision. -/
def guardIter {α : Type} (cs : List ExcClass) : BodyOutcome α → List String × IterResult α
  | .ret v => ([], .returnVal v)
  | .raise e =>
    let pe := interruptToExit e
    let hs := handleSignal (α := α) cs pe.2
    (pe.1 ++ hs.1, hs.2)

/-- The `while True:` loop of the wrapped function `inner`
(`src/demo/exceptions.py`, lines 115-131). `body n` is the outcome of
the `n`-th invocation of the guarded body; `fuel` bounds the number of
iterations executed. Returns all printed lines and how the run ended. -/
def runGuard {α : Type} (cs : List ExcClass) (body : Nat → BodyOutcome α) :
    Nat → Nat → List String × GuardResult α
  | _, 0 => ([], .diverge)
  | n, fuel + 1 =>
    let g := guardIter cs (body n)
    match g.2 with
    | .returnVal v => (g.1, .value v)
    | .breakLoop => (g.1, .exited)
    | .propagate e => (g.1, .propagated e)
    | .continueLoop =>
      let rest := runGuard cs body (n + 1) fuel
      (g.1 ++ rest.1, rest.2)

/-- A sample guarded body used as a concrete witness: its first
invocation raises a default `DemoRestart` and every later invocation
returns 7. -/
def bodyW : Nat → BodyOutcome Nat := fun k =>
  if k = 0 then .raise (DemoException.init .demoRestart none) else .ret 7

/-- The instance state read by `Demo.print_intro`: whether
`self.print_intro` has already been rebound to the no-op lambda, and the
class name used in the banner. -/
structure DemoState where
  introDone : Bool
  className : String
deriving DecidableEq

/-- `Demo.print_intro` (`src/demo/demo.py`, lines 57-64): print the
welcome banner and a blank line, then disable itself by rebinding the
instance attribute; once disabled it prints nothing and changes
nothing. -/
def print_intro (s : DemoState) : List String × DemoState :=
  if s.introDone then ([], s)
  else (["Welcome to " ++ s.className ++ "!", ""], { s with introDone := true })

/-- A character of the help text together with the two observations
`print_help` makes about it (`src/demo/demo.py`, lines 120-125):
`alnum` models Python `char.isalnum()`, and `reprX` models
`repr(char).startswith("'\x")` — true exactly for the non-printable code
points below U+0100 that Python 3 renders with a backslash-x escape
(tab, newline and carriage return are rendered with their own escapes
and so are not in this class; printable glyphs such as emoji are
rendered as themselves). `glyph` is the character itself, used for the
space comparisons in `startswith`, `lstrip` and `rfind`. -/
structure PyChar where
  glyph : Char
  alnum : Bool
  reprX : Bool
deriving DecidableEq

/-- A plain space character (not alphanumeric, printable repr). -/
def spaceChar : PyChar := ⟨' ', false, false⟩

/-- The default bullet palette of `print_help`
(`[" ", "●", "○", "▸", "▹"]`); all five are printable, non-alphanumeric
glyphs in Python 3. -/
def bulletFilled : PyChar := ⟨'●', false, false⟩

/-- Level-2 bullet of the default palette. -/
def bulletOpen : PyChar := ⟨'○', false, false⟩

/-- Level-3 bullet of the default palette. -/
def triangleFilled : PyChar := ⟨'▸', false, false⟩

/-- Level-4 bullet of the default palette. -/
def triangleOpen : PyChar := ⟨'▹', false, false⟩

/-- The default `symbols` keyword argument of `print_help`. -/
def defaultSymbols : List PyChar :=
  [spaceChar, bulletFilled, bulletOpen, triangleFilled, triangleOpen]

/-- The per-line counting loop of `print_help` (`src/demo/demo.py`,
lines 118-125): returns the number of characters counted at full width
(`char.isalnum() or not repr(char).startswith("'\x")`) and the number of
escape-like characters. -/
def countChars : List PyChar → Nat × Nat
  | [] => (0, 0)
  | c :: rest =>
    let t := countChars rest
    if c.alnum || !c.reprX then (t.1 + 1, t.2) else (t.1, t.2 + 1)

/-- The visual width `total` computed by `print_help` for a line
(`total += escapes / 3` on line 126): each plain character counts 1 and
each escape-like character counts one third. -/
def visualWidth (l : List PyChar) : ℚ :=
  ((countChars l).1 : ℚ) + ((countChars l).2 : ℚ) / 3

/-- Helper for `rfindSpace`: the largest index `idx + j < stop` (with
`j` within the remaining list) holding a space. -/
def rfindSpaceAux : List PyChar → Nat → Nat → Option Nat
  | [], _, _ => none
  | c :: rest, idx, stop =>
    if idx < stop then
      match rfindSpaceAux rest (idx + 1) stop with
      | some k => some k
      | none => if c.glyph = ' ' then some idx else none
    else none

/-- Python `line.rfind(" ", 0, stop)` (`src/demo/demo.py`, line 129):
the largest index below `stop` holding a space, if any. -/
def rfindSpace (line : List PyChar) (stop : Nat) : Option Nat :=
  rfindSpaceAux line 0 stop

/-- The test `total <= width` of `print_help` (`src/demo/demo.py`, line
127), written over natural numbers so that it computes: with `total =
plain + escapes / 3`, the comparison `total ≤ width` holds exactly when
`3 * plain + escapes ≤ 3 * width`. `fitsWidth_iff` below proves this
equal to the rational-arithmetic reading of the source. -/
def fitsWidth (width : Nat) (line : List PyChar) : Bool :=
  decide (3 * (countChars line).1 + (countChars line).2 ≤ 3 * width)

/-- One pass of the wrapping loop body for the current line
(`src/demo/demo.py`, lines 117-134): `none` means the line fits
(`total <= width`, the loop breaks); otherwise the line is split at the
last space before `width + (escapes or 1)` (falling back to a hard break
at `width + escapes`), returning the kept part `line[:k]` and the
overflow `line[k+1:]`. -/
def wrapStep (width : Nat) (line : List PyChar) : Option (List PyChar × List PyChar) :=
  let e := (countChars line).2
  if fitsWidth width line then none
  else
    let stop := width + (if e = 0 then 1 else e)
    let k := (rfindSpace line stop).getD (width + e)
    some (line.take k, line.drop (k + 1))

/-- The `while True:` wrapping loop of `print_help` (`src/demo/demo.py`,
lines 116-134): repeatedly split the current line, prefixing each
overflow with the indentation `ws`, until a line fits. `fuel` bounds the
number of produced lines (`none` = fuel ran out; the loop in the source
does not terminate on every input). -/
def wrapLoop (width : Nat) (ws : List PyChar) (line : List PyChar) :
    Nat → Option (List (List PyChar))
  | 0 => none
  | fuel + 1 =>
    match wrapStep width line with
    | none => some [line]
    | some (kept, overflow) =>
      (wrapLoop width ws (ws ++ overflow) fuel).map (kept :: ·)

/-- Python `line.startswith("    " * i)` specialised to `n = 4 * i`
spaces: the line has at least `n` characters and the first `n` are
spaces. -/
def startsWithNSpaces (line : List PyChar) (n : Nat) : Bool :=
  decide (n ≤ line.length) && (line.take n).all (fun c => c.glyph = ' ')

/-- The `for i, mark in reversed(symbols)` scan of `print_help`
(`src/demo/demo.py`, lines 109-111): the largest level `i` (trying
`i = top` down to 0) whose 4-space prefix the line carries; level 0
always matches. -/
def detectLevelAux (line : List PyChar) : Nat → Nat
  | 0 => 0
  | i + 1 =>
    if startsWithNSpaces line (4 * (i + 1)) then i + 1 else detectLevelAux line i

/-- Indentation level of a body line for a palette of `numSymbols`
bullet symbols. -/
def detectLevel (numSymbols : Nat) (line : List PyChar) : Nat :=
  detectLevelAux line (numSymbols - 1)

/-- Python `line.lstrip()`: drop leading whitespace characters. -/
def lstrip (l : List PyChar) : List PyChar :=
  l.dropWhile (fun c => c.glyph.isWhitespace)

/-- Rendering of one help-text body line by `print_help`
(`src/demo/demo.py`, lines 105-137): a blank line passes through as one
blank output line; otherwise the indentation level is detected, the
first line is built as `(ws[:-2] + mark + " " if i else "") +
line.lstrip()` with `ws = " " * (indent * i)`, and the result is
word-wrapped to `width`. Returns the printed lines (`none` = wrapping
fuel exhausted). -/
def renderBodyLine (symbols : List PyChar) (width indent : Nat)
    (line : List PyChar) (fuel : Nat) : Option (List (List PyChar)) :=
  if lstrip line = [] then some [[]]
  else
    let i := detectLevel symbols.length line
    let ws := List.replicate (indent * i) spaceChar
    let mark := (symbols.get? i).getD spaceChar
    let first := (if i = 0 then [] else ws.take (indent * i - 2) ++ [mark, spaceChar])
      ++ lstrip line
    wrapLoop width ws first fuel

/-- `fitsWidth` decides exactly the comparison `visualWidth line ≤ width`
performed by the source. -/
theorem fitsWidth_iff (width : Nat) (line : List PyChar) :
    fitsWidth width line = true ↔ visualWidth line ≤ (width : ℚ) := by
  rw [fitsWidth, decide_eq_true_iff, visualWidth]
  constructor
  · intro h
    have h' : ((3 * (countChars line).1 + (countChars line).2 : Nat) : ℚ) ≤
        ((3 * width : Nat) : ℚ) := by exact_mod_cast h
    push_cast at h'
    linarith
  · intro h
    have h' : ((3 * (countChars line).1 + (countChars line).2 : Nat) : ℚ) ≤
        ((3 * width : Nat) : ℚ) := by push_cast; linarith
    exact_mod_cast h'

/-- A subclass of `DemoException` is never a subclass of
`KeyboardInterrupt`. -/
theorem demo_not_interrupt (c : ExcClass) (h : issubclass c .demoException = true) :
    issubclass c .keyboardInterrupt = false := by
  cases c <;> revert h <;> decide

/-- C8 counterexample: `KeyNotFoundError` is constructed with the
argument `"foo"`, but its display text is the formatted class template,
not the supplied argument. -/
theorem option_error_text_counterexample :
    (OptionError.init .keyNotFoundError "foo").text =
      some "'foo' does not exist in the cache." ∧
    (OptionError.init .keyNotFoundError "foo").text ≠ some "foo" := by
  exact ⟨rfl, by decide⟩

/-- C8 (amended): for the control-flow signal classes, constructing an
instance with a non-empty text makes that text the display text, and
constructing without a text argument leaves the class defaults
(`DemoRestart`: "Restarting.", `DemoExit`: "Goodbye!", `DemoRetry`: "");
the option-lookup errors are instead constructed with an option name and
their display text is the class template with that name substituted. -/
theorem signal_text_construction :
    (∀ s : String, s ≠ "" →
      (DemoException.init .demoRestart (some s)).text = some s ∧
      (DemoException.init .demoExit (some s)).text = some s ∧
      (DemoException.init .demoRetry (some s)).text = some s) ∧
    (DemoException.init .demoRestart none).text = some "Restarting." ∧
    (DemoException.init .demoExit none).text = some "Goodbye!" ∧
    (DemoException.init .demoRetry none).text = some "" ∧
    (∀ opt : String,
      (OptionError.init .keyNotFoundError opt).text =
        some ("'" ++ opt ++ "' does not exist in the cache.") ∧
      (OptionError.init .optionNotFoundError opt).text =
        some ("'" ++ opt ++ "' not registered.") ∧
      (OptionError.init .callbackNotFoundError opt).text =
        some ("'" ++ opt ++ "' callback not registered") ∧
      (OptionError.init .callbackNotLockError opt).text =
        some ("'" ++ opt ++ "' callback not lock, key rejected")) := by
  refine ⟨?_, rfl, rfl, rfl, fun opt => ⟨rfl, rfl, rfl, rfl⟩⟩
  intro s hs
  simp [DemoException.init, hs]

/-- C8 witness: a `DemoRestart` built with the custom text "Custom"
carries that text. -/
theorem signal_text_construction_witness :
    (DemoException.init .demoRestart (some "Custom")).text = some "Custom" :=
  (signal_text_construction.1 "Custom" (by decide)).1

/-- C9: the first call to `print_intro` prints the welcome banner and a
blank line; it flips the instance into the disabled state, in which
every later call prints nothing and leaves the state unchanged, so two
calls produce the same output as one. -/
theorem print_intro_once (s : DemoState) (h : s.introDone = false) :
    (print_intro s).1 = ["Welcome to " ++ s.className ++ "!", ""] ∧
    (print_intro s).2.introDone = true ∧
    (∀ s' : DemoState, s'.introDone = true → print_intro s' = ([], s')) ∧
    (print_intro (print_intro s).2).1 = [] ∧
    (print_intro s).1 ++ (print_intro (print_intro s).2).1 = (print_intro s).1 := by
  have hs' : ∀ s' : DemoState, s'.introDone = true → print_intro s' = ([], s') := by
    intro s' h'
    simp [print_intro, h']
  refine ⟨by simp [print_intro, h], by simp [print_intro, h], hs', ?_, ?_⟩
  · simp [print_intro, h]
  · simp [print_intro, h]

/-- C9 witness: `print_intro` on a fresh `Demo` instance prints the
banner. -/
theorem print_intro_once_witness :
    (print_intro { introDone := false, className := "Demo" }).1 =
      ["Welcome to Demo!", ""] :=
  (print_intro_once { introDone := false, className := "Demo" } rfl).1

/-- C10: constructing a signal with an empty (falsy) text does not
override the class default (`DemoRestart("")` still carries
"Restarting."), and a caught `DemoRetry` built with no text or empty
text makes the guard print nothing and continue the loop. -/
theorem falsy_text_keeps_default :
    (DemoException.init .demoRestart (some "")).text = some "Restarting." ∧
    (∀ (cs : List ExcClass) (t : Option String), t = none ∨ t = some "" →
      isInstance (DemoException.init .demoRetry t) cs = true →
      guardIter (α := Unit) cs (.raise (DemoException.init .demoRetry t)) =
        ([], .continueLoop)) := by
  refine ⟨rfl, ?_⟩
  rintro cs t (rfl | rfl) hin
  · have h1 : interruptToExit (DemoException.init .demoRetry none) =
        ([], DemoException.init .demoRetry none) := by decide
    have h2 : textMsgs (DemoException.init .demoRetry none) = [] := by decide
    have h3 : issubclass (DemoException.init .demoRetry none).cls .demoExit = false := by
      decide
    simp [guardIter, h1, handleSignal, hin, h2, h3]
  · have h1 : interruptToExit (DemoException.init .demoRetry (some "")) =
        ([], DemoException.init .demoRetry (some "")) := by decide
    have h2 : textMsgs (DemoException.init .demoRetry (some "")) = [] := by decide
    have h3 : issubclass (DemoException.init .demoRetry (some "")).cls .demoExit = false := by
      decide
    simp [guardIter, h1, handleSignal, hin, h2, h3]

/-- C10 witness: a default-constructed `DemoRetry` caught by the default
catch-set prints nothing and continues. -/
theorem falsy_text_keeps_default_witness :
    guardIter (α := Unit) [ExcClass.demoException]
      (.raise (DemoException.init .demoRetry none)) = ([], .continueLoop) :=
  falsy_text_keeps_default.2 [ExcClass.demoException] none (Or.inl rfl) (by decide)

/-- C2: a caught demo signal prints its non-empty text followed by a
blank line; a caught `DemoExit` breaks the loop (the guard then ends the
run returning nothing), and any other caught signal makes the loop
continue. -/
theorem caught_signal_prints_and_decides {α : Type} (cs : List ExcClass) (e : PyExc)
    (hd : issubclass e.cls .demoException = true)
    (hin : isInstance e cs = true) :
    (∀ s : String, e.text = some s → s ≠ "" →
      (guardIter (α := α) cs (.raise e)).1 = [s, ""]) ∧
    (issubclass e.cls .demoExit = true →
      (guardIter (α := α) cs (.raise e)).2 = .breakLoop) ∧
    (issubclass e.cls .demoExit = false →
      (guardIter (α := α) cs (.raise e)).2 = .continueLoop) ∧
    (∀ (body : Nat → BodyOutcome α) (n fuel : Nat), body n = .raise e →
      issubclass e.cls .demoExit = true →
      runGuard cs body n (fuel + 1) = ((guardIter (α := α) cs (.raise e)).1, .exited)) := by
  have hki := demo_not_interrupt e.cls hd
  have h1 : interruptToExit e = ([], e) := by simp [interruptToExit, hki]
  have hg : guardIter (α := α) cs (.raise e) =
      (textMsgs e, if issubclass e.cls .demoExit then .breakLoop else .continueLoop) := by
    simp [guardIter, h1, handleSignal, hin]
  refine ⟨?_, ?_, ?_, ?_⟩
  · intro s hs hne
    rw [hg]
    simp [textMsgs, hs, hne]
  · intro hx
    rw [hg]
    simp [hx]
  · intro hx
    rw [hg]
    simp [hx]
  · intro body n fuel hb hx
    have hg2 : (guardIter (α := α) cs (.raise e)).2 = .breakLoop := by
      rw [hg]
      simp [hx]
    simp [runGuard, hb, hg2]

/-- C2 witness: a default `DemoExit` caught by the default catch-set
prints "Goodbye!" and a blank line. -/
theorem caught_signal_prints_and_decides_witness :
    (guardIter (α := Unit) [ExcClass.demoException]
      (.raise (DemoException.init .demoExit none))).1 = ["Goodbye!", ""] :=
  (caught_signal_prints_and_decides [ExcClass.demoException]
    (DemoException.init .demoExit none) (by decide) (by decide)).1
    "Goodbye!" rfl (by decide)

/-- C5 counterexample: a `KeyboardInterrupt` is not an instance of the
default catch-set, yet the guard does not propagate it: it prints a
blank line, converts it to `DemoExit` and takes the exit path. -/
theorem interrupt_not_propagated_counterexample :
    isInstance ⟨.keyboardInterrupt, none⟩ (catchSet []) = false ∧
    guardIter (α := Unit) (catchSet []) (.raise ⟨.keyboardInterrupt, none⟩) =
      (["", "Goodbye!", ""], .breakLoop) ∧
    (guardIter (α := Unit) (catchSet []) (.raise ⟨.keyboardInterrupt, none⟩)).2 ≠
      .propagate ⟨.keyboardInterrupt, none⟩ := by
  decide

/-- C5 (amended): the catch-set defaults to `DemoException` when
`catch_exc` is given no `DemoException` subclasses; every member of a
computed catch-set is a `DemoException` subclass (non-subclass arguments
are excluded); and an exception other than a `KeyboardInterrupt` that is
not an instance of the catch-set is not caught and propagates to the
caller. -/
theorem catch_exc_default_and_propagation :
    catchSet [] = [.demoException] ∧
    (∀ args : List CatchArg,
      (∀ c : ExcClass, CatchArg.cls c ∈ args → issubclass c .demoException = false) →
      catchSet args = [.demoException]) ∧
    (∀ (args : List CatchArg) (c : ExcClass), c ∈ catchSet args →
      issubclass c .demoException = true) ∧
    (∀ (cs : List ExcClass) (e : PyExc), isInstance e cs = false →
      issubclass e.cls .keyboardInterrupt = false →
      guardIter (α := Unit) cs (.raise e) = ([], .propagate e)) := by
  refine ⟨rfl, ?_, ?_, ?_⟩
  · intro args h
    have hk : args.filterMap (fun a =>
        match a with
        | .cls c => if issubclass c .demoException then some c else none
        | .func => none
        | .other => none) = [] := by
      rw [List.filterMap_eq_nil_iff]
      intro a ha
      cases a with
      | cls c => simp [h c ha]
      | func => rfl
      | other => rfl
    simp [catchSet, hk]
  · intro args c hc
    rw [catchSet] at hc
    by_cases hk : (args.filterMap (fun a =>
        match a with
        | .cls c => if issubclass c .demoException then some c else none
        | .func => none
        | .other => none)).isEmpty
    · simp only [hk, if_true] at hc
      have : c = .demoException := by simpa using hc
      subst this
      decide
    · simp only [hk, if_false] at hc
      obtain ⟨a, _, hfa⟩ := List.mem_filterMap.mp hc
      cases a with
      | cls c' =>
        by_cases hsub : issubclass c' .demoException = true
        · simp only [hsub, if_true] at hfa
          obtain rfl := Option.some.inj hfa
          exact hsub
        · simp only [Bool.not_eq_true] at hsub
          simp [hsub] at hfa
      | func => simp at hfa
      | other => simp at hfa
  · intro cs e hni hki
    have h1 : interruptToExit e = ([], e) := by simp [interruptToExit, hki]
    simp [guardIter, h1, handleSignal, hni]

/-- C5 witness: a non-demo exception (stand-in for `ValueError`) raised
under the default catch-set propagates to the caller. -/
theorem catch_exc_propagation_witness :
    guardIter (α := Unit) (catchSet []) (.raise ⟨.valueError, none⟩) =
      ([], .propagate ⟨.valueError, none⟩) :=
  catch_exc_default_and_propagation.2.2.2 (catchSet []) ⟨.valueError, none⟩
    (by decide) (by decide)

/-- C6: a `KeyboardInterrupt` raised by the guarded body makes the guard
print a blank line and raise the `DemoExit` produced by `demo.quit()`
(default text "Goodbye!"); when `DemoExit` is an instance of the
catch-set, the iteration therefore prints the blank line, "Goodbye!" and
another blank line, and breaks the loop. -/
theorem keyboard_interrupt_to_exit {α : Type} (cs : List ExcClass) (e : PyExc)
    (hk : e.cls = .keyboardInterrupt) :
    interruptToExit e = ([""], Demo.quit none) ∧
    (Demo.quit none).cls = .demoExit ∧
    (Demo.quit none).text = some "Goodbye!" ∧
    (isInstance (Demo.quit none) cs = true →
      guardIter (α := α) cs (.raise e) = (["", "Goodbye!", ""], .breakLoop)) := by
  have hsub : issubclass ExcClass.keyboardInterrupt .keyboardInterrupt = true := by decide
  have h1 : interruptToExit e = ([""], Demo.quit none) := by
    simp [interruptToExit, hk, hsub]
  refine ⟨h1, rfl, rfl, ?_⟩
  intro hin
  have h2 : textMsgs (Demo.quit none) = ["Goodbye!", ""] := by decide
  have h3 : issubclass (Demo.quit none).cls .demoExit = true := by decide
  simp [guardIter, h1, handleSignal, hin, h2, h3]

/-- C6 witness: under the default catch-set, an interrupt produces the
blank line, the Goodbye text, and the exit path. -/
theorem keyboard_interrupt_to_exit_witness :
    guardIter (α := Unit) (catchSet []) (.raise ⟨.keyboardInterrupt, none⟩) =
      (["", "Goodbye!", ""], .breakLoop) :=
  (keyboard_interrupt_to_exit (catchSet []) ⟨.keyboardInterrupt, none⟩ rfl).2.2.2
    (by decide)

/-- A guard iteration decides to return a value only when the body
returned that value. -/
theorem guardIter_snd_returnVal {α : Type} (cs : List ExcClass) (o : BodyOutcome α)
    (v : α) (h : (guardIter cs o).2 = .returnVal v) : o = .ret v := by
  cases o with
  | ret w =>
    simp only [guardIter] at h
    obtain rfl := IterResult.returnVal.inj h
    rfl
  | raise e =>
    exfalso
    simp only [guardIter, handleSignal] at h
    by_cases hin : isInstance (interruptToExit e).2 cs = true
    · simp only [hin, if_true] at h
      by_cases hex : issubclass (interruptToExit e).2.cls .demoExit = true
      · simp [hex] at h
      · simp only [Bool.not_eq_true] at hex
        simp [hex] at h
    · simp only [Bool.not_eq_true] at hin
      simp [hin] at h

/-- A guard iteration decides to break the loop only when the body
raised an exception whose converted form is a caught `DemoExit`. -/
theorem guardIter_snd_breakLoop {α : Type} (cs : List ExcClass) (o : BodyOutcome α)
    (h : (guardIter cs o).2 = .breakLoop) :
    ∃ e, o = .raise e ∧ isInstance (interruptToExit e).2 cs = true ∧
      issubclass (interruptToExit e).2.cls .demoExit = true := by
  cases o with
  | ret w => simp [guardIter] at h
  | raise e =>
    refine ⟨e, rfl, ?_⟩
    simp only [guardIter, handleSignal] at h
    by_cases hin : isInstance (interruptToExit e).2 cs = true
    · simp only [hin, if_true] at h
      by_cases hex : issubclass (interruptToExit e).2.cls .demoExit = true
      · exact ⟨hin, hex⟩
      · simp only [Bool.not_eq_true] at hex
        simp [hex] at h
    · simp only [Bool.not_eq_true] at hin
      simp [hin] at h

/-- Unfolding of the guard loop when the iteration decides to continue:
the next fuel step re-invokes the body at the next invocation index. -/
theorem runGuard_continue {α : Type} (cs : List ExcClass) (body : Nat → BodyOutcome α)
    (n fuel : Nat) (h : (guardIter cs (body n)).2 = .continueLoop) :
    runGuard cs body n (fuel + 1) =
      ((guardIter cs (body n)).1 ++ (runGuard cs body (n + 1) fuel).1,
        (runGuard cs body (n + 1) fuel).2) := by
  simp [runGuard, h]

/-- If a guard run ends with a value, some invocation of the body
returned that value. -/
theorem runGuard_value_characterization {α : Type} (cs : List ExcClass)
    (body : Nat → BodyOutcome α) :
    ∀ (fuel n : Nat) (out : List String) (v : α),
      runGuard cs body n fuel = (out, .value v) → ∃ k, body k = .ret v := by
  intro fuel
  induction fuel with
  | zero =>
    intro n out v h
    simp [runGuard] at h
  | succ f ih =>
    intro n out v h
    rcases hg : (guardIter cs (body n)).2 with w | _ | _ | e
    · have hv : w = v := by
        have h2 : runGuard cs body n (f + 1) = ((guardIter cs (body n)).1, .value w) := by
          simp [runGuard, hg]
        rw [h2] at h
        have := congrArg Prod.snd h
        simpa using this
      exact ⟨n, guardIter_snd_returnVal cs (body n) v (hv ▸ hg)⟩
    · have h2 : runGuard cs body n (f + 1) = ((guardIter cs (body n)).1, .exited) := by
        simp [runGuard, hg]
      rw [h2] at h
      have := congrArg Prod.snd h
      simp at this
    · rw [runGuard_continue cs body n f hg] at h
      have h2 := congrArg Prod.snd h
      simp only at h2
      exact ih (n + 1) (runGuard cs body (n + 1) f).1 v (Prod.ext rfl h2)
    · have h2 : runGuard cs body n (f + 1) = ((guardIter cs (body n)).1, .propagated e) := by
        simp [runGuard, hg]
      rw [h2] at h
      have := congrArg Prod.snd h
      simp at this

/-- If a guard run ends via the exit path, some invocation of the body
raised an exception whose converted form is a caught `DemoExit`. -/
theorem runGuard_exited_characterization {α : Type} (cs : List ExcClass)
    (body : Nat → BodyOutcome α) :
    ∀ (fuel n : Nat) (out : List String),
      runGuard cs body n fuel = (out, .exited) →
      ∃ k e, body k = .raise e ∧ isInstance (interruptToExit e).2 cs = true ∧
        issubclass (interruptToExit e).2.cls .demoExit = true := by
  intro fuel
  induction fuel with
  | zero =>
    intro n out h
    simp [runGuard] at h
  | succ f ih =>
    intro n out h
    rcases hg : (guardIter cs (body n)).2 with w | _ | _ | e
    · have h2 : runGuard cs body n (f + 1) = ((guardIter cs (body n)).1, .value w) := by
        simp [runGuard, hg]
      rw [h2] at h
      have := congrArg Prod.snd h
      simp at this
    · obtain ⟨e, he, h3, h4⟩ := guardIter_snd_breakLoop cs (body n) hg
      exact ⟨n, e, he, h3, h4⟩
    · rw [runGuard_continue cs body n f hg] at h
      have h2 := congrArg Prod.snd h
      simp only at h2
      exact ih (n + 1) (runGuard cs body (n + 1) f).1 (Prod.ext rfl h2)
    · have h2 : runGuard cs body n (f + 1) = ((guardIter cs (body n)).1, .propagated e) := by
        simp [runGuard, hg]
      rw [h2] at h
      have := congrArg Prod.snd h
      simp at this

/-- C1: the guard loop ends with a value only when the body returned
normally, and ends via the exit path only when a caught signal was (after
interrupt conversion) a `DemoExit`; a caught signal that is not a
`DemoExit` — e.g. a `DemoRestart` or `DemoRetry` — makes the iteration
continue, and a continuing iteration re-invokes the body at the next
invocation index. -/
theorem catch_exc_loop_termination {α : Type} (cs : List ExcClass)
    (body : Nat → BodyOutcome α) :
    (∀ (fuel n : Nat) (out : List String) (v : α),
      runGuard cs body n fuel = (out, .value v) → ∃ k, body k = .ret v) ∧
    (∀ (fuel n : Nat) (out : List String),
      runGuard cs body n fuel = (out, .exited) →
      ∃ k e, body k = .raise e ∧ isInstance (interruptToExit e).2 cs = true ∧
        issubclass (interruptToExit e).2.cls .demoExit = true) ∧
    (∀ (n : Nat) (e : PyExc), body n = .raise e →
      isInstance (interruptToExit e).2 cs = true →
      issubclass (interruptToExit e).2.cls .demoExit = false →
      (guardIter cs (body n)).2 = .continueLoop) ∧
    (∀ (n fuel : Nat), (guardIter cs (body n)).2 = .continueLoop →
      runGuard cs body n (fuel + 1) =
        ((guardIter cs (body n)).1 ++ (runGuard cs body (n + 1) fuel).1,
          (runGuard cs body (n + 1) fuel).2)) := by
  refine ⟨runGuard_value_characterization cs body,
    runGuard_exited_characterization cs body, ?_, runGuard_continue cs body⟩
  intro n e hb hin hex
  rw [hb]
  simp [guardIter, handleSignal, hin, hex]

/-- C1 witness: for a body whose first invocation raises `DemoRestart`
and which then returns 7, a finished guard run implies some invocation
returned 7. -/
theorem catch_exc_loop_termination_witness : ∃ k, bodyW k = .ret 7 :=
  (catch_exc_loop_termination [ExcClass.demoException] bodyW).1 2 0
    ["Restarting.", ""] 7 (by decide)

/-- The two character counts of a line sum to its length. -/
theorem countChars_fst_add_snd (l : List PyChar) :
    (countChars l).1 + (countChars l).2 = l.length := by
  induction l with
  | nil => rfl
  | cons c t ih =>
    simp only [countChars, List.length_cons]
    split <;> omega

/-- A line no longer than the width always fits, whatever its
characters. -/
theorem fitsWidth_of_length_le (w : Nat) (l : List PyChar) (h : l.length ≤ w) :
    fitsWidth w l = true := by
  rw [fitsWidth, decide_eq_true_iff]
  have := countChars_fst_add_snd l
  omega

/-- A line of plain characters is counted at one column each, with no
escapes. -/
theorem countChars_all_plain (l : List PyChar)
    (h : ∀ c ∈ l, (c.alnum || !c.reprX) = true) :
    countChars l = (l.length, 0) := by
  induction l with
  | nil => rfl
  | cons c t ih =>
    have hc := h c (List.mem_cons_self c t)
    have ht := ih (fun x hx => h x (List.mem_cons_of_mem c hx))
    simp [countChars, hc, ht]

/-- `rfind` returns nothing on a line with no spaces. -/
theorem rfindSpaceAux_none (l : List PyChar) (h : ∀ c ∈ l, c.glyph ≠ ' ') :
    ∀ (i s : Nat), rfindSpaceAux l i s = none := by
  induction l with
  | nil => intro i s; rfl
  | cons c t ih =>
    intro i s
    have hc := h c (List.mem_cons_self c t)
    have ht := ih (fun x hx => h x (List.mem_cons_of_mem c hx))
    simp [rfindSpaceAux, ht, hc]

/-- `lstrip` keeps a line whose first character is not whitespace. -/
theorem lstrip_cons_of_not_ws (c : PyChar) (t : List PyChar)
    (h : c.glyph.isWhitespace = false) : lstrip (c :: t) = c :: t := by
  simp [lstrip, List.dropWhile_cons, h]

/-- `lstrip` removes a leading run of spaces. -/
theorem lstrip_replicate_space (m : Nat) (l : List PyChar) :
    lstrip (List.replicate m spaceChar ++ l) = lstrip l := by
  induction m with
  | zero => simp
  | succ k ih =>
    have hsp : spaceChar.glyph.isWhitespace = true := by decide
    simp only [List.replicate_succ, List.cons_append, lstrip, List.dropWhile_cons, hsp,
      if_true]
    simpa [lstrip] using ih

/-- A line made of `m` spaces followed by a non-space character starts
with `n` spaces exactly when `n ≤ m`. -/
theorem startsWithNSpaces_replicate (m n : Nat) (r : PyChar) (t : List PyChar)
    (hr : r.glyph ≠ ' ') :
    startsWithNSpaces (List.replicate m spaceChar ++ r :: t) n = decide (n ≤ m) := by
  by_cases hnm : n ≤ m
  · have hlen : n ≤ (List.replicate m spaceChar ++ r :: t).length := by
      simp
      omega
    have htake : (List.replicate m spaceChar ++ r :: t).take n =
        List.replicate n spaceChar := by
      rw [List.take_append_eq_append_take, List.take_replicate]
      have h0 : n - (List.replicate m spaceChar).length = 0 := by
        simp
        omega
      rw [h0]
      simp [Nat.min_eq_left hnm]
    rw [startsWithNSpaces, htake]
    simp only [decide_eq_true hlen, Bool.true_and, decide_eq_true hnm]
    rw [List.all_eq_true]
    intro x hx
    have : x = spaceChar := List.eq_of_mem_replicate hx
    simp [this, spaceChar]
  · have hmem : r ∈ (List.replicate m spaceChar ++ r :: t).take n := by
      rw [List.take_append_eq_append_take]
      refine List.mem_append_right _ ?_
      have h1 : n - (List.replicate m spaceChar).length ≠ 0 := by
        simp
        omega
      cases h2 : n - (List.replicate m spaceChar).length with
      | zero => exact absurd h2 h1
      | succ k =>
        rw [List.take_succ_cons]
        exact List.mem_cons_self r _
    have hall : ((List.replicate m spaceChar ++ r :: t).take n).all
        (fun c => c.glyph = ' ') = false := by
      rw [← Bool.not_eq_true, List.all_eq_true]
      intro hcontra
      exact hr (by simpa using hcontra r hmem)
    rw [startsWithNSpaces, hall, Bool.and_false, decide_eq_false hnm]

/-- If no positive space-prefix test succeeds, the detected level is
zero. -/
theorem detectLevelAux_eq_zero (line : List PyChar)
    (h : ∀ n, 0 < n → startsWithNSpaces line n = false) :
    ∀ k, detectLevelAux line k = 0 := by
  intro k
  induction k with
  | zero => rfl
  | succ i ih =>
    rw [detectLevelAux, h (4 * (i + 1)) (by omega)]
    simpa using ih

/-- A line fitting the width is left alone by the wrapping step. -/
theorem wrapStep_none_of_le (w : Nat) (line : List PyChar) (h : line.length ≤ w) :
    wrapStep w line = none := by
  simp [wrapStep, fitsWidth_of_length_le w line h]

/-- On an over-long line with no spaces and no escapes, the wrapping
step hard-breaks at the width: it keeps `line[:width]` and carries over
`line[width+1:]`. -/
theorem wrapStep_hard_break (w : Nat) (line : List PyChar)
    (hfit : fitsWidth w line = false) (hesc : (countChars line).2 = 0)
    (hnos : ∀ c ∈ line, c.glyph ≠ ' ') :
    wrapStep w line = some (line.take w, line.drop (w + 1)) := by
  simp [wrapStep, hfit, hesc, rfindSpace, rfindSpaceAux_none line hnos]

/-- One unfolding of the wrapping loop. -/
theorem wrapLoop_succ (w : Nat) (ws line : List PyChar) (fuel : Nat) :
    wrapLoop w ws line (fuel + 1) =
      match wrapStep w line with
      | none => some [line]
      | some kd => (wrapLoop w ws (ws ++ kd.2) fuel).map (kd.1 :: ·) := by
  cases h : wrapStep w line with
  | none => simp only [wrapLoop, h]
  | some kd => simp only [wrapLoop, h]

/-- C3: a body line of 30 plain non-space characters rendered at
width 20 is hard-broken at column 20: the output is exactly
`line[:20]` followed by `line[21:]` (the character at the break column
is consumed by the split), the first output line is exactly 20 columns,
and no output line exceeds 20 columns. -/
theorem print_help_hard_break_width20 (l : List PyChar) (hlen : l.length = 30)
    (hch : ∀ c ∈ l, c.glyph.isWhitespace = false ∧ c.reprX = false) :
    renderBodyLine defaultSymbols 20 4 l 2 = some [l.take 20, l.drop 21] ∧
    (l.take 20).length = 20 ∧
    (l.drop 21).length ≤ 20 := by
  have hplain : ∀ c ∈ l, (c.alnum || !c.reprX) = true := by
    intro c hc
    have := (hch c hc).2
    simp [this]
  have hnos : ∀ c ∈ l, c.glyph ≠ ' ' := by
    intro c hc hgl
    have h1 := (hch c hc).1
    rw [hgl] at h1
    exact absurd h1 (by decide)
  have hcount : countChars l = (30, 0) := by
    rw [countChars_all_plain l hplain, hlen]
  obtain ⟨c, t, rfl⟩ : ∃ c t, l = c :: t := by
    cases l with
    | nil => simp at hlen
    | cons c t => exact ⟨c, t, rfl⟩
  have hhead : c.glyph.isWhitespace = false := (hch c (List.mem_cons_self c t)).1
  have hlst : lstrip (c :: t) = c :: t := lstrip_cons_of_not_ws c t hhead
  have hsw : ∀ n, 0 < n → startsWithNSpaces (c :: t) n = false := by
    intro n hn
    have h0 := startsWithNSpaces_replicate 0 n c t (hnos c (List.mem_cons_self c t))
    simp only [List.replicate, List.nil_append] at h0
    rw [h0, decide_eq_false]
    omega
  have hlevel : detectLevelAux (c :: t) 4 = 0 := detectLevelAux_eq_zero _ hsw 4
  have hfit : fitsWidth 20 (c :: t) = false := by
    simp [fitsWidth, hcount]
  have hstep1 : wrapStep 20 (c :: t) = some ((c :: t).take 20, (c :: t).drop 21) :=
    wrapStep_hard_break 20 (c :: t) hfit (by rw [hcount]) hnos
  have hdrop : ((c :: t).drop 21).length = 9 := by
    rw [List.length_drop, hlen]
  have hstep2 : wrapStep 20 ((c :: t).drop 21) = none :=
    wrapStep_none_of_le 20 _ (by omega)
  have hwrap : wrapLoop 20 [] (c :: t) 2 = some [(c :: t).take 20, (c :: t).drop 21] := by
    rw [show (2 : Nat) = 1 + 1 from rfl, wrapLoop_succ, hstep1]
    simp only [List.nil_append]
    rw [show (1 : Nat) = 0 + 1 from rfl, wrapLoop_succ, hstep2]
    rfl
  refine ⟨?_, ?_, by omega⟩
  · rw [renderBodyLine, hlst]
    simp only [if_neg (List.cons_ne_nil c t)]
    rw [show detectLevel defaultSymbols.length (c :: t) = 0 from hlevel]
    simpa [hlst] using hwrap
  · rw [List.length_take, hlen]
    norm_num

/-- C3 witness: a concrete line of 30 letters is broken into a 20-column
line and a 9-column line. -/
theorem print_help_hard_break_width20_witness :
    renderBodyLine defaultSymbols 20 4 (List.replicate 30 ⟨'a', true, false⟩) 2 =
      some [(List.replicate 30 (⟨'a', true, false⟩ : PyChar)).take 20,
        (List.replicate 30 (⟨'a', true, false⟩ : PyChar)).drop 21] :=
  (print_help_hard_break_width20 (List.replicate 30 ⟨'a', true, false⟩)
    (by decide) (by decide)).1

/-- On a line carrying exactly two 4-space indentation units, the
reversed symbol scan detects level 2. -/
theorem detectLevelAux_of_prefix8 (line : List PyChar)
    (h : ∀ n, startsWithNSpaces line n = decide (n ≤ 8)) :
    detectLevelAux line 4 = 2 := by
  have h4 : detectLevelAux line 4 =
      if startsWithNSpaces line 16 then 4 else detectLevelAux line 3 := rfl
  have h3 : detectLevelAux line 3 =
      if startsWithNSpaces line 12 then 3 else detectLevelAux line 2 := rfl
  have h2 : detectLevelAux line 2 =
      if startsWithNSpaces line 8 then 2 else detectLevelAux line 1 := rfl
  rw [h4, h 16, h3, h 12, h2, h 8]
  norm_num

/-- C7: a short body line with two leading 4-space units is rendered
with the level-2 bullet of the default palette after two indentation
units of leading prefix (six spaces, the bullet, one space), while the
same content at level 0 is rendered as-is, with no bullet. -/
theorem bullet_level2_indent (rest : List PyChar) (r : PyChar)
    (hr : r.glyph.isWhitespace = false)
    (hlen : (r :: rest).length ≤ 12) :
    renderBodyLine defaultSymbols 20 4 (List.replicate 8 spaceChar ++ r :: rest) 1 =
      some [List.replicate 6 spaceChar ++ bulletOpen :: spaceChar :: r :: rest] ∧
    renderBodyLine defaultSymbols 20 4 (r :: rest) 1 = some [r :: rest] := by
  have hr' : r.glyph ≠ ' ' := by
    intro hgl
    rw [hgl] at hr
    exact absurd hr (by decide)
  have hmark : (defaultSymbols.get? 2).getD spaceChar = bulletOpen := rfl
  constructor
  · have hlst2 : lstrip (List.replicate 8 spaceChar ++ r :: rest) = r :: rest := by
      rw [lstrip_replicate_space, lstrip_cons_of_not_ws r rest hr]
    have hlevel : detectLevel defaultSymbols.length
        (List.replicate 8 spaceChar ++ r :: rest) = 2 :=
      detectLevelAux_of_prefix8 _ (fun n => startsWithNSpaces_replicate 8 n r rest hr')
    have hfit : wrapStep 20 (List.replicate 6 spaceChar ++
        bulletOpen :: spaceChar :: r :: rest) = none := by
      refine wrapStep_none_of_le 20 _ ?_
      simp only [List.length_append, List.length_replicate, List.length_cons]
      simp only [List.length_cons] at hlen
      omega
    have hwrap : wrapLoop 20 (List.replicate 8 spaceChar)
        (List.replicate 6 spaceChar ++ bulletOpen :: spaceChar :: r :: rest) 1 =
        some [List.replicate 6 spaceChar ++ bulletOpen :: spaceChar :: r :: rest] := by
      rw [show (1 : Nat) = 0 + 1 from rfl, wrapLoop_succ, hfit]
    rw [renderBodyLine, hlst2]
    rw [if_neg (by simp)]
    simp only [hlevel, hmark]
    norm_num [List.take_replicate]
    exact hwrap
  · have hlst0 : lstrip (r :: rest) = r :: rest := lstrip_cons_of_not_ws r rest hr
    have hsw : ∀ n, 0 < n → startsWithNSpaces (r :: rest) n = false := by
      intro n hn
      have h0 := startsWithNSpaces_replicate 0 n r rest hr'
      simp only [List.replicate, List.nil_append] at h0
      rw [h0, decide_eq_false]
      omega
    have hlevel : detectLevel defaultSymbols.length (r :: rest) = 0 :=
      detectLevelAux_eq_zero _ hsw 4
    have hfit : wrapStep 20 (r :: rest) = none := by
      refine wrapStep_none_of_le 20 _ ?_
      omega
    have hwrap : wrapLoop 20 (List.replicate 0 spaceChar) (r :: rest) 1 =
        some [r :: rest] := by
      rw [show (1 : Nat) = 0 + 1 from rfl, wrapLoop_succ, hfit]
    rw [renderBodyLine, hlst0]
    rw [if_neg (by simp)]
    simp only [hlevel]
    norm_num
    exact hwrap

/-- C7 witness: a concrete level-2 line gets the open-circle bullet and
six spaces of leading whitespace; the same content at level 0 gets no
bullet. -/
theorem bullet_level2_indent_witness :
    renderBodyLine defaultSymbols 20 4
      (List.replicate 8 spaceChar ++ (⟨'a', true, false⟩ : PyChar) ::
        List.replicate 4 ⟨'a', true, false⟩) 1 =
      some [List.replicate 6 spaceChar ++ bulletOpen :: spaceChar ::
        (⟨'a', true, false⟩ : PyChar) :: List.replicate 4 ⟨'a', true, false⟩] :=
  (bullet_level2_indent (List.replicate 4 ⟨'a', true, false⟩) ⟨'a', true, false⟩
    (by decide) (by decide)).1

/-- C4 counterexample: the specification's example of an
escape-sequence-like character — an emoji — in fact contributes a full
column, not one third: in Python 3 the repr of U+1F600 is the printable
glyph itself, so `print_help` counts it as a plain character. -/
theorem visual_width_emoji_counterexample :
    visualWidth [⟨'😀', false, false⟩] = 1 ∧
    visualWidth [⟨'😀', false, false⟩] ≠ 1 / 3 := by
  constructor <;> norm_num [visualWidth, countChars]

/-- C4 (amended): in the visual-width computation of `print_help`, a
character counts one third of a column exactly when it is not
alphanumeric and its Python repr starts with a backslash-x escape (a
non-printable code point below U+0100, e.g. most control codes); every
other character — including printable non-ASCII glyphs such as emoji —
counts exactly 1. -/
theorem visual_width_contribution :
    (∀ (c : PyChar) (l : List PyChar),
      visualWidth (c :: l) =
        (if c.alnum || !c.reprX then 1 else 1 / 3) + visualWidth l) ∧
    visualWidth [⟨'\x01', false, true⟩] = 1 / 3 ∧
    visualWidth [⟨'😀', false, false⟩] = 1 := by
  refine ⟨?_, by norm_num [visualWidth, countChars],
    by norm_num [visualWidth, countChars]⟩
  intro c l
  by_cases h : (c.alnum || !c.reprX) = true
  · simp [visualWidth, countChars, h]
    ring
  · simp only [Bool.not_eq_true] at h
    simp [visualWidth, countChars, h]
    ring

